import Mathlib

/-
  Verification development for the tauri-plugin-stronghold TypeScript API.

  The definitions below are a shallow embedding of the TypeScript sources:
  src/unnamed/part_000 (the current api module), src/unnamed/part_001
  (which holds the compiled current module followed by the legacy module
  with onStatusChange and the legacy Vault), and src/webview-src/index.ts
  (the middle revision). Commands sent to the Rust side through invoke are
  modelled as an Invocation: the command string plus the argument object.
  JavaScript runtime values are modelled by JsValue, which keeps plain
  number arrays, typed arrays and ArrayBuffers distinct, exactly as the
  JavaScript runtime does.
-/

namespace StrongholdSpec

/-- Model of a JavaScript runtime value as it appears in invoke arguments.
A plain number array (arr), a typed array such as Uint8Array (typedArray)
and an ArrayBuffer (buffer) are distinct JavaScript values and serialize
differently, so they are distinct constructors. -/
inductive JsValue where
  | null
  | undefinedV
  | bool (b : Bool)
  | num (n : Int)
  | str (s : String)
  | arr (xs : List JsValue)
  | obj (fields : List (String × JsValue))
  | typedArray (bytes : List Nat)
  | buffer (bytes : List Nat)
deriving Repr

/-- Association-list lookup by key, modelling field access on a
JavaScript object literal. -/
def assocLookup {κ α : Type} [DecidableEq κ] : List (κ × α) → κ → Option α
  | [], _ => none
  | (k, v) :: rest, key => if k = key then some v else assocLookup rest key

/-- An invoke call: the Tauri command name and the argument object, which
in every call site of the sources is an object literal. -/
structure Invocation where
  cmd : String
  args : List (String × JsValue)

/-- The BytesDto type of src/unnamed/part_000 line 3:
type BytesDto = string | number[]. -/
inductive BytesDto where
  | str (s : String)
  | arr (bytes : List Nat)
deriving DecidableEq, Repr

/-- The domain of toBytesDto, i.e. the ClientPath / VaultPath /
RecordPath / StoreKey union type of src/unnamed/part_000 lines 4-7:
string | Iterable of number | ArrayLike of number | ArrayBuffer.
A plain number array, a typed array (an Iterable and ArrayLike that is
not a plain array, e.g. Uint8Array) and an ArrayBuffer are distinct
JavaScript values carrying the same byte content. -/
inductive BytesLike where
  | str (s : String)
  | numberArray (bytes : List Nat)
  | typedArray (bytes : List Nat)
  | arrayBuffer (bytes : List Nat)
deriving DecidableEq, Repr

/-- Transcribed from toBytesDto, src/unnamed/part_000 lines 9-18: a
string is returned unchanged; an ArrayBuffer is first viewed as a
Uint8Array; everything else goes through Array.from, yielding a plain
number array with the same elements. -/
def toBytesDto : BytesLike → BytesDto
  | .str s => .str s
  | .numberArray l => .arr l
  | .typedArray l => .arr l
  | .arrayBuffer l => .arr l

/-- A BytesDto value viewed again as a member of the input union type:
a string is a string, and a number array is a plain array (an Iterable
and ArrayLike of numbers). -/
def BytesDto.toBytesLike : BytesDto → BytesLike
  | .str s => .str s
  | .arr l => .numberArray l

/-- The JavaScript value denoted by a BytesDto. -/
def BytesDto.toJs : BytesDto → JsValue
  | .str s => .str s
  | .arr l => .arr (l.map (fun b => JsValue.num (Int.ofNat b)))

/-- The JavaScript value denoted by a BytesLike input form. -/
def BytesLike.toJs : BytesLike → JsValue
  | .str s => .str s
  | .numberArray l => .arr (l.map (fun b => JsValue.num (Int.ofNat b)))
  | .typedArray l => .typedArray l
  | .arrayBuffer l => .buffer l

/-- Whether an input form is already in the image of toBytesDto, i.e. a
string or a plain number array. -/
def BytesLike.isDto : BytesLike → Bool
  | .str _ => true
  | .numberArray _ => true
  | .typedArray _ => false
  | .arrayBuffer _ => false

/-- UTF-8 encoding of a string as a byte list, via the UTF-8 encoder of
the core library. -/
def utf8Bytes (s : String) : List Nat :=
  s.toUTF8.toList.map (fun b => b.toNat)

/-- Modelled from the spec: the key denoted by a BytesDto on the Rust
side of the plugin (which is not under src, only Cargo.toml is). Section
3 of the spec states that paths are raw byte sequences and strings are
UTF-8 encodings of the same, and section 6 states that the string form
and the raw byte-sequence form are equivalent encodings of the same key
space. -/
def keyBytes : BytesDto → List Nat
  | .str s => utf8Bytes s
  | .arr l => l

/-- The Location class of src/unnamed/part_000 lines 71-78: a type tag
and a payload object. -/
structure Location where
  type : String
  payload : List (String × JsValue)

/-- Transcribed from Location.generic, src/unnamed/part_000 lines 80-85. -/
def Location.generic (vault record : BytesLike) : Location :=
  ⟨"Generic", [("vault", (toBytesDto vault).toJs), ("record", (toBytesDto record).toJs)]⟩

/-- Transcribed from Location.counter, src/unnamed/part_000 lines 87-92:
the counter number is stored unchanged. -/
def Location.counter (vault : BytesLike) (counter : Int) : Location :=
  ⟨"Counter", [("vault", (toBytesDto vault).toJs), ("counter", JsValue.num counter)]⟩

/-- The JavaScript value of a Location instance: its two fields. -/
def Location.toJs (l : Location) : JsValue :=
  .obj [("type", .str l.type), ("payload", .obj l.payload)]

/-- JavaScript value of an optional number argument: the source spells
the optional parameter into the payload object, so an omitted argument
appears as an undefined field. -/
def optNum : Option Int → JsValue
  | some n => .num n
  | none => .undefinedV

/-- JavaScript value of an optional string argument. -/
def optStr : Option String → JsValue
  | some s => .str s
  | none => .undefinedV

/-- The source argument of SLIP10Derive: the literal union type
of the strings Seed and Key. -/
inductive Slip10Source where
  | seed
  | key
deriving DecidableEq, Repr

/-- The string carried by a Slip10Source value. -/
def Slip10Source.toName : Slip10Source → String
  | .seed => "Seed"
  | .key => "Key"

/-- Argument tuples of the six procedure methods shared by the local
ProcedureExecutor (src/unnamed/part_000 lines 95-184) and the remote
Communication variants (lines 431-554). -/
inductive Procedure where
  | slip10Generate (output : Location) (sizeBytes : Option Int)
  | slip10Derive (chain : List Int) (source : Slip10Source)
      (sourceLocation outputLocation : Location)
  | bip39Recover (mnemonic : String) (outputLocation : Location)
      (passphrase : Option String)
  | bip39Generate (outputLocation : Location) (passphrase : Option String)
  | getEd25519PublicKey (privateKeyLocation : Location)
  | signEd25519 (privateKeyLocation : Location) (msg : String)

/-- Transcribed from the procedure objects built by ProcedureExecutor,
src/unnamed/part_000 lines 102-183: each method passes a procedure field
holding an object with a type tag and a payload. -/
def ProcedureExecutor.procedureJs : Procedure → JsValue
  | .slip10Generate output sizeBytes =>
    .obj [("type", .str "SLIP10Generate"),
          ("payload", .obj [("output", output.toJs), ("sizeBytes", optNum sizeBytes)])]
  | .slip10Derive chain source sourceLocation outputLocation =>
    .obj [("type", .str "SLIP10Derive"),
          ("payload", .obj [("chain", .arr (chain.map JsValue.num)),
                            ("input", .obj [("type", .str source.toName),
                                            ("payload", sourceLocation.toJs)]),
                            ("output", outputLocation.toJs)])]
  | .bip39Recover mnemonic outputLocation passphrase =>
    .obj [("type", .str "BIP39Recover"),
          ("payload", .obj [("mnemonic", .str mnemonic),
                            ("passphrase", optStr passphrase),
                            ("output", outputLocation.toJs)])]
  | .bip39Generate outputLocation passphrase =>
    .obj [("type", .str "BIP39Generate"),
          ("payload", .obj [("output", outputLocation.toJs),
                            ("passphrase", optStr passphrase)])]
  | .getEd25519PublicKey privateKeyLocation =>
    .obj [("type", .str "PublicKey"),
          ("payload", .obj [("type", .str "Ed25519"),
                            ("privateKey", privateKeyLocation.toJs)])]
  | .signEd25519 privateKeyLocation msg =>
    .obj [("type", .str "Ed25519Sign"),
          ("payload", .obj [("privateKey", privateKeyLocation.toJs),
                            ("msg", .str msg)])]

/-- Transcribed from the private send method of Communication,
src/unnamed/part_000 lines 296-303: a p2p_send invoke carrying the
snapshot path, the peer, the normalized client and the request. -/
def Communication.sendCall (path peer : String) (client : BytesLike)
    (request : JsValue) : Invocation :=
  ⟨"plugin:stronghold|p2p_send",
   [("snapshotPath", .str path), ("peer", .str peer),
    ("client", (toBytesDto client).toJs), ("request", request)]⟩

/-- Transcribed from the request objects built by the six remote
procedure methods of Communication, src/unnamed/part_000 lines 431-554:
each builds a ClientRequest envelope whose request is a Procedures
object holding a one-element procedures array. -/
def Communication.remoteProcedureRequest : Procedure → JsValue
  | .slip10Generate output sizeBytes =>
    .obj [("type", .str "ClientRequest"),
          ("payload", .obj [("request", .obj [("type", .str "Procedures"),
            ("payload", .obj [("procedures", .arr [
              .obj [("type", .str "SLIP10Generate"),
                    ("payload", .obj [("output", output.toJs),
                                      ("sizeBytes", optNum sizeBytes)])]])])])])]
  | .slip10Derive chain source sourceLocation outputLocation =>
    .obj [("type", .str "ClientRequest"),
          ("payload", .obj [("request", .obj [("type", .str "Procedures"),
            ("payload", .obj [("procedures", .arr [
              .obj [("type", .str "SLIP10Derive"),
                    ("payload", .obj [("chain", .arr (chain.map JsValue.num)),
                                      ("input", .obj [("type", .str source.toName),
                                                      ("payload", sourceLocation.toJs)]),
                                      ("output", outputLocation.toJs)])]])])])])]
  | .bip39Recover mnemonic outputLocation passphrase =>
    .obj [("type", .str "ClientRequest"),
          ("payload", .obj [("request", .obj [("type", .str "Procedures"),
            ("payload", .obj [("procedures", .arr [
              .obj [("type", .str "BIP39Recover"),
                    ("payload", .obj [("mnemonic", .str mnemonic),
                                      ("passphrase", optStr passphrase),
                                      ("output", outputLocation.toJs)])]])])])])]
  | .bip39Generate outputLocation passphrase =>
    .obj [("type", .str "ClientRequest"),
          ("payload", .obj [("request", .obj [("type", .str "Procedures"),
            ("payload", .obj [("procedures", .arr [
              .obj [("type", .str "BIP39Generate"),
                    ("payload", .obj [("output", outputLocation.toJs),
                                      ("passphrase", optStr passphrase)])]])])])])]
  | .getEd25519PublicKey privateKeyLocation =>
    .obj [("type", .str "ClientRequest"),
          ("payload", .obj [("request", .obj [("type", .str "Procedures"),
            ("payload", .obj [("procedures", .arr [
              .obj [("type", .str "PublicKey"),
                    ("payload", .obj [("type", .str "Ed25519"),
                                      ("privateKey", privateKeyLocation.toJs)])]])])])])]
  | .signEd25519 privateKeyLocation msg =>
    .obj [("type", .str "ClientRequest"),
          ("payload", .obj [("request", .obj [("type", .str "Procedures"),
            ("payload", .obj [("procedures", .arr [
              .obj [("type", .str "Ed25519Sign"),
                    ("payload", .obj [("privateKey", privateKeyLocation.toJs),
                                      ("msg", .str msg)])]])])])])]

/-- The full remote procedure call: the envelope handed to send. -/
def Communication.procedureCall (path peer : String) (client : BytesLike)
    (p : Procedure) : Invocation :=
  Communication.sendCall path peer client (Communication.remoteProcedureRequest p)

/-- The ClientRequest and Procedures envelope around a list of procedure
objects, written once, used to state how the remote request relates to
the local procedure object. -/
def clientRequestProcedures (ps : List JsValue) : JsValue :=
  .obj [("type", .str "ClientRequest"),
        ("payload", .obj [("request", .obj [("type", .str "Procedures"),
          ("payload", .obj [("procedures", .arr ps)])])])]

/-- The Vault class of src/unnamed/part_000 lines 240-254. The
constructor hands the UNNORMALIZED client and name to the
ProcedureExecutor super constructor (its procedureArgs), while the
instance fields client and name are normalized with toBytesDto. -/
structure Vault where
  path : String
  argsClient : BytesLike
  argsVault : BytesLike
  client : BytesDto
  name : BytesDto

/-- Transcribed from the Vault constructor, src/unnamed/part_000
lines 245-254. -/
def Vault.make (path : String) (client name : BytesLike) : Vault :=
  ⟨path, client, name, toBytesDto client, toBytesDto name⟩

/-- The procedureArgs object captured by the super constructor call,
src/unnamed/part_000 lines 246-250: the raw client and name values. -/
def Vault.procedureArgs (v : Vault) : List (String × JsValue) :=
  [("snapshotPath", .str v.path), ("client", v.argsClient.toJs),
   ("vault", v.argsVault.toJs)]

/-- Transcribed from the execute_procedure invoke of ProcedureExecutor,
src/unnamed/part_000 lines 102-183: the spread procedureArgs followed by
the procedure object. -/
def Vault.executeProcedureCall (v : Vault) (p : Procedure) : Invocation :=
  ⟨"plugin:stronghold|execute_procedure",
   v.procedureArgs ++ [("procedure", ProcedureExecutor.procedureJs p)]⟩

/-- Transcribed from Vault.insert, src/unnamed/part_000 lines 256-264. -/
def Vault.insertCall (v : Vault) (recordPath : BytesLike) (secret : List Nat) :
    Invocation :=
  ⟨"plugin:stronghold|save_secret",
   [("snapshotPath", .str v.path), ("client", v.client.toJs),
    ("vault", v.name.toJs), ("recordPath", (toBytesDto recordPath).toJs),
    ("secret", .arr (secret.map (fun b => JsValue.num (Int.ofNat b))))]⟩

/-- Transcribed from Vault.remove, src/unnamed/part_000 lines 266-273:
a remove_secret invoke carrying snapshotPath, client, vault and
location. It takes no garbage-collection argument and its argument
object has no gc field. -/
def Vault.removeCall (v : Vault) (location : Location) : Invocation :=
  ⟨"plugin:stronghold|remove_secret",
   [("snapshotPath", .str v.path), ("client", v.client.toJs),
    ("vault", v.name.toJs), ("location", location.toJs)]⟩

/-- The Client class of src/unnamed/part_000 lines 186-202: the name
field is normalized on construction. -/
structure Client where
  path : String
  name : BytesDto

/-- Transcribed from the Client constructor, src/unnamed/part_000
lines 190-193. -/
def Client.make (path : String) (name : BytesLike) : Client :=
  ⟨path, toBytesDto name⟩

/-- Transcribed from Client.getVault, src/unnamed/part_000 lines
195-197: the already-normalized client name and the normalized vault
name are handed to the Vault constructor. -/
def Client.getVault (c : Client) (name : BytesLike) : Vault :=
  Vault.make c.path c.name.toBytesLike (toBytesDto name).toBytesLike

/-- The StrongholdFlag enumeration of the legacy module is declared with
no members (src/unnamed/part_001 lines 559-561). -/
inductive StrongholdFlag

/-- JavaScript value of a StrongholdFlag: the enumeration is empty, so
there is nothing to map. -/
def StrongholdFlag.toJs : StrongholdFlag → JsValue := fun f => nomatch f

/-- The legacy Vault class of src/unnamed/part_001 lines 833-885: a
name, a flags list and the snapshot path. -/
structure LegacyVault where
  path : String
  name : String
  flags : List StrongholdFlag

/-- The vault getter of the legacy Vault, src/unnamed/part_001 lines
848-853: an object holding name and flags. -/
def LegacyVault.vaultJs (v : LegacyVault) : JsValue :=
  .obj [("name", .str v.name), ("flags", .arr (v.flags.map StrongholdFlag.toJs))]

/-- Transcribed from the legacy Vault.remove, src/unnamed/part_001 lines
877-884: a remove_record invoke carrying the location and the gc flag. -/
def LegacyVault.removeCall (v : LegacyVault) (location : Location) (gc : Bool) :
    Invocation :=
  ⟨"plugin:stronghold|remove_record",
   [("snapshotPath", .str v.path), ("vault", v.vaultJs),
    ("location", location.toJs), ("gc", .bool gc)]⟩

/-- The legacy Vault.remove with the gc argument omitted: the source
declares the parameter with default value true. -/
def LegacyVault.removeCallDefault (v : LegacyVault) (location : Location) :
    Invocation :=
  v.removeCall location true

/-- The JavaScript error raised by a rejected promise; for this
development only the TypeError raised by Uint8Array.from matters. -/
inductive JsError where
  | typeError
deriving DecidableEq, Repr

/-- Semantics of the JavaScript builtin Uint8Array.from on the possible
resolutions of a get_store_record or remove_store_record call: applied
to a plain number array it copies the elements; applied to null it
throws a TypeError (the TypedArray.from algorithm converts its argument
with ToObject, which throws on null). -/
def uint8ArrayFrom : Option (List Nat) → Except JsError (List Nat)
  | some l => .ok l
  | none => .error .typeError

/-- The Store class of src/unnamed/part_000 lines 204-238. -/
structure Store where
  path : String
  client : BytesDto

/-- Transcribed from Store.get, src/unnamed/part_000 lines 213-219. -/
def Store.getCall (st : Store) (key : BytesLike) : Invocation :=
  ⟨"plugin:stronghold|get_store_record",
   [("snapshotPath", .str st.path), ("client", st.client.toJs),
    ("key", (toBytesDto key).toJs)]⟩

/-- Transcribed from Store.get, src/unnamed/part_000 lines 213-219: the
invoke result is piped through then with the callback applying
Uint8Array.from to it. The backend resolution for the key is passed as
response: some bytes when the key is present, none when the backend
resolves the command with null. -/
def Store.getRun (st : Store) (key : BytesLike) (response : Option (List Nat)) :
    Except JsError (List Nat) :=
  let _ := st.getCall key
  uint8ArrayFrom response

/-- Transcribed from Store.remove, src/unnamed/part_000 lines 231-237:
the then callback tests its argument for truthiness first, mapping a
byte array through Uint8Array.from and passing null through as null
(a JavaScript array is always truthy, null is falsy). -/
def Store.removeRun (st : Store) (key : BytesLike)
    (response : Option (List Nat)) : Except JsError (Option (List Nat)) :=
  let _ := st
  let _ := key
  match response with
  | some l => .ok (some l)
  | none => .ok none

/-- The Stronghold class object of src/unnamed/part_000 lines 584-597:
only the path field. -/
structure StrongholdObj where
  path : String
deriving DecidableEq, Repr

/-- The backend answering invoke calls: resolution or rejection of each
command. -/
def Backend : Type := Invocation → Except JsError JsValue

/-- A JavaScript promise, modelled by its eventual outcome under a given
backend. -/
def JsPromise (α : Type) : Type := Backend → Except JsError α

/-- The promise returned by invoke for a call. -/
def invokeAsync (call : Invocation) : JsPromise JsValue :=
  fun backend => backend call

/-- The invoke arguments of the private reload method of Stronghold,
src/unnamed/part_000 lines 592-597. -/
def strongholdInitCall (path password : String) : Invocation :=
  ⟨"plugin:stronghold|initialize",
   [("snapshotPath", .str path), ("password", .str password)]⟩

/-- Transcribed from Stronghold.reload, src/unnamed/part_000 lines
592-597. -/
def StrongholdObj.reload (s : StrongholdObj) (password : String) :
    JsPromise JsValue :=
  invokeAsync (strongholdInitCall s.path password)

/-- Transcribed from the Stronghold constructor, src/unnamed/part_000
lines 587-590: it sets the path field, calls reload with the password
and DISCARDS the returned promise without awaiting it. The constructed
object is the first component; the discarded promise is carried in the
second component so its unobserved fate can be reasoned about. -/
def Stronghold.construct (path password : String) :
    StrongholdObj × JsPromise JsValue :=
  let s : StrongholdObj := ⟨path⟩
  (s, s.reload password)

/-- A status-change listener entry of the legacy module,
src/unnamed/part_001 lines 1121-1125: the random id string and the
callback, the latter modelled by an opaque number. -/
structure Listener where
  id : String
  cb : Nat
deriving DecidableEq, Repr

/-- The statusChangeListeners registry of src/unnamed/part_001 line 552:
an object mapping snapshot paths to listener arrays. -/
abbrev Registry := List (String × List Listener)

/-- The listener array registered under a path, with the missing entry
read as the empty array, matching the undefined guard of
src/unnamed/part_001 lines 1118-1120 and the empty-array fallback of
line 555. -/
def listenersAt (reg : Registry) (path : String) : List Listener :=
  (assocLookup reg path).getD []

/-- Assignment to a key of a JavaScript object: replaces the entry when
the key is present, appends it otherwise. -/
def setEntry : Registry → String → List Listener → Registry
  | [], path, ls => [(path, ls)]
  | (q, ms) :: rest, path, ls =>
    if q = path then (path, ls) :: rest else (q, ms) :: setEntry rest path ls

/-- Transcribed from Stronghold.onStatusChange, src/unnamed/part_001
lines 1117-1129: the id is the decimal string of one random byte drawn
from crypto.getRandomValues, passed here explicitly as drawnByte; the
new listener is pushed onto the path entry; the returned unregistration
token is the closure capturing the path and the id, represented by the
id it captures. -/
def onStatusChange (reg : Registry) (path : String) (drawnByte : Nat)
    (cb : Nat) : Registry × String :=
  let id := toString drawnByte
  let current := listenersAt reg path
  (setEntry reg path (current ++ [⟨id, cb⟩]), id)

/-- Transcribed from the unregistration closure returned by
onStatusChange, src/unnamed/part_001 lines 1126-1128: the path entry is
replaced by its listeners whose id differs from the captured id. -/
def unregister (reg : Registry) (path : String) (id : String) : Registry :=
  setEntry reg path ((listenersAt reg path).filter (fun l => l.id != id))

/-- The ClientAccess interface of src/unnamed/part_000 lines 39-48, with
the optional maps as association lists over raw vault-path byte keys. -/
structure ClientAccess where
  useVaultDefault : Option Bool
  useVaultExceptions : List (List Nat × Bool)
  writeVaultDefault : Option Bool
  writeVaultExceptions : List (List Nat × Bool)
  cloneVaultDefault : Option Bool
  cloneVaultExceptions : List (List Nat × Bool)
  readStore : Option Bool
  writeStore : Option Bool

/-- The Permissions interface of src/unnamed/part_000 lines 50-53: a
default ClientAccess plus per-vault-path exceptions. -/
structure Permissions where
  dflt : Option ClientAccess
  exceptions : List (List Nat × ClientAccess)

/-- The peer-permission part of the NetworkConfig interface of
src/unnamed/part_000 lines 55-64: per-peer Permissions plus a global
default. -/
structure NetworkPermissions where
  peerPermissions : List (String × Permissions)
  permissionsDefault : Option Permissions

/-- Modelled from the spec: the writeVault axis of a ClientAccess,
section 4.3 — the exact vault-path exception when present, else the
client-level default, else undecided. -/
def ClientAccess.writeVaultAccess (ca : ClientAccess) (vault : List Nat) :
    Option Bool :=
  assocLookup ca.writeVaultExceptions vault <|> ca.writeVaultDefault

/-- Modelled from the spec: the writeVault axis of a Permissions record,
section 4.3 — the per-vault exception ClientAccess when present, else
the default ClientAccess. -/
def Permissions.writeVaultAccess (p : Permissions) (vault : List Nat) :
    Option Bool :=
  (match assocLookup p.exceptions vault with
   | some ca => ca.writeVaultAccess vault
   | none => none) <|> p.dflt.bind (fun ca => ca.writeVaultAccess vault)

/-- Modelled from the spec: the full per-peer writeVault decision of the
Rust access-control layer, which is not under src (only the TypeScript
bindings and Cargo.toml are). Section 4.3 gives the evaluation order —
exact vault-path exception lookup, then client-level default, then
global permission default, then hard deny — with absence of a flag
denying by default. -/
def NetworkPermissions.writeVaultAllowed (cfg : NetworkPermissions)
    (peer : String) (vault : List Nat) : Bool :=
  (((assocLookup cfg.peerPermissions peer).bind
      (fun p => p.writeVaultAccess vault)) <|>
   cfg.permissionsDefault.bind (fun p => p.writeVaultAccess vault)).getD false

/-- Error kinds of the engine that this development needs, from section
7 of the spec. -/
inductive StrongholdError where
  | permissionDenied
  | notFound
deriving DecidableEq, Repr

/-- The remote-reachable vault contents: locations (vault path, record
path) mapped to record payloads. -/
abbrev RemoteVaultStore := List ((List Nat × List Nat) × List Nat)

/-- Modelled from the spec: the remote WriteToVault handler of the Rust
backend, which is not under src. Sections 4.3 and 8 — a peer request
passes the per-peer permission check before reaching the write handler;
a peer without writeVault permission receives PermissionDenied and no
record is created. -/
def handleWriteToVault (cfg : NetworkPermissions) (st : RemoteVaultStore)
    (peer : String) (vault record payload : List Nat) :
    RemoteVaultStore × Except StrongholdError Unit :=
  if cfg.writeVaultAllowed peer vault then
    (((vault, record), payload) :: st, .ok ())
  else
    (st, .error .permissionDenied)

/-- A BytesDto viewed back as an input form normalizes to itself. -/
lemma toBytesDto_fix (d : BytesDto) : toBytesDto d.toBytesLike = d := by
  cases d <;> rfl

/-- On input forms that are already a string or a plain number array,
the raw JavaScript value and the JavaScript value of the normalization
coincide. -/
lemma isDto_toJs (x : BytesLike) (h : x.isDto = true) :
    x.toJs = (toBytesDto x).toJs := by
  cases x with
  | str s => rfl
  | numberArray l => rfl
  | typedArray l => exact absurd h (by simp [BytesLike.isDto])
  | arrayBuffer l => exact absurd h (by simp [BytesLike.isDto])

/-- Reading back the entry just assigned. -/
lemma listenersAt_setEntry_self (reg : Registry) (p : String)
    (ls : List Listener) : listenersAt (setEntry reg p ls) p = ls := by
  induction reg with
  | nil => simp [setEntry, listenersAt, assocLookup]
  | cons e rest ih =>
    obtain ⟨q, ms⟩ := e
    by_cases h : q = p
    · simp [setEntry, listenersAt, assocLookup, h]
    · simpa [setEntry, listenersAt, assocLookup, h] using ih

/-- Assigning one entry leaves every other entry unchanged. -/
lemma listenersAt_setEntry_other (reg : Registry) (p q : String)
    (ls : List Listener) (h : q ≠ p) :
    listenersAt (setEntry reg p ls) q = listenersAt reg q := by
  induction reg with
  | nil => simp [setEntry, listenersAt, assocLookup, h, Ne.symm h]
  | cons e rest ih =>
    obtain ⟨k, ms⟩ := e
    by_cases hk : k = p
    · subst hk
      simp [setEntry, listenersAt, assocLookup, h, Ne.symm h]
    · by_cases hkq : k = q
      · simp [setEntry, listenersAt, assocLookup, hk, hkq, h, Ne.symm h]
      · simpa [setEntry, listenersAt, assocLookup, hk, hkq] using ih

/-- Claim C1: the UTF-8 string form and the raw byte-sequence form of an
identifier are equivalent encodings of the same key: toBytesDto maps a
string s and any byte-sequence form holding the UTF-8 encoding of s to
values denoting identical keys, so commands built from either form
address the same record. -/
theorem toBytesDto_utf8_equivalent :
    ∀ (s : String),
      keyBytes (toBytesDto (.str s)) = utf8Bytes s
    ∧ keyBytes (toBytesDto (.numberArray (utf8Bytes s))) = utf8Bytes s
    ∧ keyBytes (toBytesDto (.typedArray (utf8Bytes s))) = utf8Bytes s
    ∧ keyBytes (toBytesDto (.arrayBuffer (utf8Bytes s))) = utf8Bytes s :=
  fun _ => ⟨rfl, rfl, rfl, rfl⟩

/-- Claim C2: a peer without writeVault permission issuing WriteToVault
on any vault path receives PermissionDenied and the vault state is
unchanged, so no record is created. -/
theorem writeToVault_denied_unchanged
    (cfg : NetworkPermissions) (st : RemoteVaultStore) (peer : String)
    (vault record payload : List Nat)
    (h : cfg.writeVaultAllowed peer vault = false) :
    handleWriteToVault cfg st peer vault record payload
      = (st, Except.error StrongholdError.permissionDenied) := by
  simp [handleWriteToVault, h]

/-- Witness for claim C2: a concrete configuration granting nothing
denies writeVault for a concrete peer and vault, and the handler leaves
the empty store unchanged with PermissionDenied. -/
theorem writeToVault_denied_unchanged_witness :
    (NetworkPermissions.mk [] none).writeVaultAllowed "peer" [1] = false
  ∧ handleWriteToVault ⟨[], none⟩ [] "peer" [1] [2] [3]
      = ([], Except.error StrongholdError.permissionDenied) :=
  ⟨rfl, writeToVault_denied_unchanged ⟨[], none⟩ [] "peer" [1] [2] [3] rfl⟩

/-- Claim C3, code evidence: when the backend resolves get_store_record
with null for an absent key, the then callback of Store.get applies
Uint8Array.from to null, which throws a TypeError, so the promise
rejects instead of resolving to null; the remove method next to it
guards the same resolution and resolves null. -/
theorem store_get_null_rejects :
    Store.getRun ⟨"snapshot.stronghold", .str "client"⟩ (.str "missing") none
      = Except.error JsError.typeError
  ∧ Store.removeRun ⟨"snapshot.stronghold", .str "client"⟩ (.str "missing") none
      = Except.ok none :=
  ⟨rfl, rfl⟩

/-- Counterexample for claim C4: the current Vault.remove issues a
remove_secret command whose argument object carries no gc field at all,
so the removal command does not carry gc set to true. -/
theorem vault_remove_carries_no_gc :
    assocLookup ((Vault.make "p" (.str "c") (.str "v")).removeCall
        (Location.generic (.str "v") (.str "r"))).args "gc"
      ≠ some (JsValue.bool true) :=
  fun h =>
    Option.noConfusion
      (show (none : Option JsValue) = some (JsValue.bool true) from h)

/-- Claim C4 as amended: only the legacy Vault.remove accepts the
garbage-collection flag — it forwards the caller value and defaults it
to true when omitted — while the current Vault.remove takes no such flag
and its remove_secret command carries no gc field. -/
theorem vault_remove_gc_versions :
    ∀ (lv : LegacyVault) (loc loc2 : Location) (gc : Bool) (v : Vault),
      assocLookup (lv.removeCall loc gc).args "gc" = some (.bool gc)
    ∧ assocLookup (lv.removeCallDefault loc).args "gc" = some (.bool true)
    ∧ assocLookup (v.removeCall loc2).args "gc" = none :=
  fun _ _ _ _ _ => ⟨rfl, rfl, rfl⟩

/-- Claim C5: for every procedure and all arguments, the remote
Communication variant builds exactly the same procedure object as the
local ProcedureExecutor variant, and the remote request is exactly the
ClientRequest and Procedures envelope around that one procedure object,
addressed through p2p_send with the added peer identifier. -/
theorem remote_procedure_matches_local :
    ∀ (p : Procedure) (path peer : String) (client : BytesLike),
      Communication.remoteProcedureRequest p
        = clientRequestProcedures [ProcedureExecutor.procedureJs p]
    ∧ Communication.procedureCall path peer client p
        = Communication.sendCall path peer client
            (clientRequestProcedures [ProcedureExecutor.procedureJs p]) := by
  intro p path peer client
  have h : Communication.remoteProcedureRequest p
      = clientRequestProcedures [ProcedureExecutor.procedureJs p] := by
    cases p <;> rfl
  exact ⟨h, congrArg (Communication.sendCall path peer client) h⟩

/-- Claim C6: Location.generic builds a Location typed Generic whose
payload holds the normalized vault and record paths, and
Location.counter builds a Location typed Counter whose payload holds the
normalized vault path and the counter number unchanged. -/
theorem location_constructors_shape :
    ∀ (v r : BytesLike) (n : Int),
      (Location.generic v r).type = "Generic"
    ∧ assocLookup (Location.generic v r).payload "vault"
        = some (toBytesDto v).toJs
    ∧ assocLookup (Location.generic v r).payload "record"
        = some (toBytesDto r).toJs
    ∧ (Location.counter v n).type = "Counter"
    ∧ assocLookup (Location.counter v n).payload "vault"
        = some (toBytesDto v).toJs
    ∧ assocLookup (Location.counter v n).payload "counter"
        = some (JsValue.num n) :=
  fun _ _ _ => ⟨rfl, rfl, rfl, rfl, rfl, rfl⟩

/-- Counterexample for claim C7: the unregistration token is the decimal
string of one random byte; when two callbacks on the same snapshot path
draw the same byte, both listeners are registered, and invoking the
unregistration token of the first removes both, not only the first. -/
theorem unregister_collision_removes_both :
    listenersAt
        (onStatusChange (onStatusChange ([] : Registry) "s" 5 1).1 "s" 5 2).1 "s"
      = [⟨toString 5, 1⟩, ⟨toString 5, 2⟩]
  ∧ listenersAt
      (unregister (onStatusChange (onStatusChange ([] : Registry) "s" 5 1).1 "s" 5 2).1 "s"
        (onStatusChange ([] : Registry) "s" 5 1).2) "s"
      = [] :=
  ⟨rfl, rfl⟩

/-- Claim C7 as amended: invoking the unregistration token removes
exactly the listeners of that snapshot path whose random id equals the
one the token captured — in particular, when the two registrations drew
distinct ids, the other callback stays registered — and the listeners of
every other snapshot path are left in place. -/
theorem unregister_removes_exactly_matching_id
    (reg : Registry) (p : String) (b₁ b₂ cb₁ cb₂ : Nat)
    (hne : toString b₁ ≠ toString b₂) :
    listenersAt
        (unregister (onStatusChange (onStatusChange reg p b₁ cb₁).1 p b₂ cb₂).1 p
          (onStatusChange reg p b₁ cb₁).2) p
      = (listenersAt reg p).filter (fun l => l.id != toString b₁)
          ++ [⟨toString b₂, cb₂⟩]
  ∧ ∀ q : String, q ≠ p →
      listenersAt
          (unregister (onStatusChange (onStatusChange reg p b₁ cb₁).1 p b₂ cb₂).1 p
            (onStatusChange reg p b₁ cb₁).2) q
        = listenersAt reg q := by
  have e1 : listenersAt (onStatusChange reg p b₁ cb₁).1 p
      = listenersAt reg p ++ [⟨toString b₁, cb₁⟩] := by
    simp [onStatusChange, listenersAt_setEntry_self]
  have e2 : listenersAt (onStatusChange (onStatusChange reg p b₁ cb₁).1 p b₂ cb₂).1 p
      = (listenersAt reg p ++ [⟨toString b₁, cb₁⟩]) ++ [⟨toString b₂, cb₂⟩] := by
    simp [onStatusChange, listenersAt_setEntry_self, e1]
  constructor
  · have e3 : listenersAt
        (unregister (onStatusChange (onStatusChange reg p b₁ cb₁).1 p b₂ cb₂).1 p
          (onStatusChange reg p b₁ cb₁).2) p
        = (listenersAt (onStatusChange (onStatusChange reg p b₁ cb₁).1 p b₂ cb₂).1 p).filter
            (fun l => l.id != toString b₁) := by
      simp [unregister, onStatusChange, listenersAt_setEntry_self]
    rw [e3, e2]
    simp [List.filter_append, bne_iff_ne, Ne.symm hne]
  · intro q hq
    simp [unregister, onStatusChange, listenersAt_setEntry_other _ _ _ _ hq]

/-- Witness for claim C7: two concrete registrations on the same path
drawing the distinct bytes 5 and 7; the token of the first removes only
the first. -/
theorem unregister_removes_exactly_matching_id_witness :
    (toString 5 ≠ toString 7)
  ∧ (listenersAt
        (unregister (onStatusChange (onStatusChange ([] : Registry) "s" 5 1).1 "s" 7 2).1 "s"
          (onStatusChange ([] : Registry) "s" 5 1).2) "s"
      = (listenersAt ([] : Registry) "s").filter (fun l => l.id != toString 5)
          ++ [⟨toString 7, 2⟩]
    ∧ ∀ q : String, q ≠ "s" →
        listenersAt
            (unregister (onStatusChange (onStatusChange ([] : Registry) "s" 5 1).1 "s" 7 2).1 "s"
              (onStatusChange ([] : Registry) "s" 5 1).2) q
          = listenersAt ([] : Registry) q) :=
  ⟨by decide, unregister_removes_exactly_matching_id [] "s" 5 7 1 2 (by decide)⟩

/-- Counterexample for claim C8: constructing a Vault directly with an
ArrayBuffer client, the execute_procedure command carries the raw
ArrayBuffer in its client slot while the save_secret command of the same
handle carries the normalized number array, and these values differ. -/
theorem vault_identifiers_differ_for_buffer :
    assocLookup ((Vault.make "p" (.arrayBuffer [1, 2]) (.str "v")).executeProcedureCall
        (.signEd25519 (Location.generic (.str "v") (.str "r")) "m")).args "client"
      ≠ assocLookup ((Vault.make "p" (.arrayBuffer [1, 2]) (.str "v")).insertCall
          (.str "r") [7]).args "client" :=
  fun h => JsValue.noConfusion (Option.some.inj h)

/-- Claim C8 as amended: whenever the client and vault identifiers used
to construct the Vault are given as a string or a plain number array —
the forms toBytesDto leaves unchanged up to copying, and the only forms
Client.getVault ever passes — every command issued through the handle
carries the same client and vault values: the execute_procedure
arguments agree with the save_secret and remove_secret arguments. -/
theorem vault_identifiers_consistent_for_dto
    (path : String) (c n : BytesLike) (hc : c.isDto = true) (hn : n.isDto = true)
    (p : Procedure) (rp : BytesLike) (secret : List Nat) (loc : Location) :
    assocLookup ((Vault.make path c n).executeProcedureCall p).args "client"
      = assocLookup ((Vault.make path c n).insertCall rp secret).args "client"
  ∧ assocLookup ((Vault.make path c n).executeProcedureCall p).args "vault"
      = assocLookup ((Vault.make path c n).insertCall rp secret).args "vault"
  ∧ assocLookup ((Vault.make path c n).executeProcedureCall p).args "client"
      = assocLookup ((Vault.make path c n).removeCall loc).args "client"
  ∧ assocLookup ((Vault.make path c n).executeProcedureCall p).args "vault"
      = assocLookup ((Vault.make path c n).removeCall loc).args "vault" :=
  ⟨congrArg some (isDto_toJs c hc), congrArg some (isDto_toJs n hn),
   congrArg some (isDto_toJs c hc), congrArg some (isDto_toJs n hn)⟩

/-- Witness for claim C8: string identifiers, for which all three
commands of one handle carry identical client and vault values. -/
theorem vault_identifiers_consistent_for_dto_witness :
    (BytesLike.isDto (.str "c") = true)
  ∧ (BytesLike.isDto (.str "v") = true)
  ∧ (assocLookup ((Vault.make "p" (.str "c") (.str "v")).executeProcedureCall
        (.signEd25519 (Location.generic (.str "v") (.str "r")) "m")).args "client"
      = assocLookup ((Vault.make "p" (.str "c") (.str "v")).insertCall
          (.str "r") [7]).args "client"
    ∧ assocLookup ((Vault.make "p" (.str "c") (.str "v")).executeProcedureCall
        (.signEd25519 (Location.generic (.str "v") (.str "r")) "m")).args "vault"
      = assocLookup ((Vault.make "p" (.str "c") (.str "v")).insertCall
          (.str "r") [7]).args "vault"
    ∧ assocLookup ((Vault.make "p" (.str "c") (.str "v")).executeProcedureCall
        (.signEd25519 (Location.generic (.str "v") (.str "r")) "m")).args "client"
      = assocLookup ((Vault.make "p" (.str "c") (.str "v")).removeCall
          (Location.generic (.str "v") (.str "r"))).args "client"
    ∧ assocLookup ((Vault.make "p" (.str "c") (.str "v")).executeProcedureCall
        (.signEd25519 (Location.generic (.str "v") (.str "r")) "m")).args "vault"
      = assocLookup ((Vault.make "p" (.str "c") (.str "v")).removeCall
          (Location.generic (.str "v") (.str "r"))).args "vault") :=
  ⟨rfl, rfl,
   vault_identifiers_consistent_for_dto "p" (.str "c") (.str "v") rfl rfl
     (.signEd25519 (Location.generic (.str "v") (.str "r")) "m") (.str "r") [7]
     (Location.generic (.str "v") (.str "r"))⟩

/-- Claim C9: the Stronghold constructor fires the snapshot
initialization command without awaiting it: under every backend,
including one rejecting the command for a wrong password, the
constructor yields the object with the path field set, and the outcome
of the discarded promise is exactly the backend answer, observable only
by a later awaited operation. -/
theorem stronghold_constructor_fire_and_forget :
    ∀ (path password : String) (backend : Backend),
      (Stronghold.construct path password).1 = ⟨path⟩
    ∧ (Stronghold.construct path password).2 backend
        = backend (strongholdInitCall path password) :=
  fun _ _ _ => ⟨rfl, rfl⟩

/-- Claim C10: toBytesDto is idempotent — applying it to its own output,
viewed again as an input form, yields an equal value: strings pass
through unchanged and an already-produced number array maps to an equal
number array. -/
theorem toBytesDto_idempotent :
    ∀ (x : BytesLike), toBytesDto ((toBytesDto x).toBytesLike) = toBytesDto x := by
  intro x
  cases x <;> rfl

end StrongholdSpec
